import Mathlib

/-
Verification of the import reconciliation routine and the credential
resolver of the reddit community manager (main.py). The per-record loop of
import_communities is embedded as a step function on the account's
subscription state, with an explicit trace of the platform operations it
issues; get_reddit_credentials is embedded over an abstract config lookup.
-/

namespace RedditCM

/-- Lowercase a string character by character, as the Python lower call does
on ASCII text (main.py line 158). -/
def lowerStr (s : String) : String := ⟨s.data.map Char.toLower⟩

/-- Boolean test that pat occurs as a contiguous substring of s: the
semantics of the Python in operator on strings, used in the error
classification (main.py lines 159-163). -/
def containsSub (s pat : String) : Bool :=
  s.data.tails.any (fun t => pat.data.isPrefixOf t)

/-- Error classification of main.py lines 157-166: the exception text is
lowercased and matched against fixed substrings in priority order. -/
def classifyError (msg : String) : String :=
  let m := lowerStr msg
  if containsSub m "private" || containsSub m "forbidden" then
    "Private/Restricted community"
  else if containsSub m "not found" || containsSub m "404" then
    "Community not found"
  else if containsSub m "banned" then
    "Banned from community"
  else
    "Unknown error: " ++ msg

/-- Per-record outcome of the import loop: an entry of successful_joins,
already_joined, or failed_joins (main.py lines 133-166). -/
inductive Outcome where
  | joined (name : String)
  | alreadyJoined (name : String)
  | failed (name : String) (error : String)
deriving DecidableEq

/-- Observable platform operations the loop can issue for one record:
resolving the subreddit, reading its subscription flag, subscribing. -/
inductive Call where
  | resolve (name : String)
  | query (name : String)
  | subscribe (name : String)
deriving DecidableEq

/-- Behaviour of the Reddit client for the operations the import loop uses.
Each operation may raise, modelled as Except carrying the exception text;
the subscription state itself is threaded separately as the list of
subscribed community names. -/
structure Client where
  resolveRes : String → Except String Unit
  queryRes : String → Except String Unit
  subscribeRes : String → Except String Unit

/-- Result of processing one record: its outcome, the new subscription
state, and the platform calls issued. -/
structure StepResult where
  outcome : Outcome
  state : List String
  calls : List Call
deriving DecidableEq

/-- Body of the per-record loop of import_communities (main.py lines
138-166), with dryRun the dry_run flag and σ the subscribed names. A record
is the optional value of its name field; an absent field and a field set to
the empty string both fail the `if not community_name` test. -/
def stepRecord (c : Client) (dryRun : Bool) (σ : List String) :
    Option String → StepResult
  | none => ⟨.failed "Unknown" "Missing community name", σ, []⟩
  | some name =>
    if name = "" then ⟨.failed "Unknown" "Missing community name", σ, []⟩
    else
      match c.resolveRes name with
      | .error e => ⟨.failed name (classifyError e), σ, [.resolve name]⟩
      | .ok _ =>
        match c.queryRes name with
        | .error e =>
          ⟨.failed name (classifyError e), σ, [.resolve name, .query name]⟩
        | .ok _ =>
          if name ∈ σ then
            ⟨.alreadyJoined name, σ, [.resolve name, .query name]⟩
          else if dryRun then
            ⟨.joined name, σ, [.resolve name, .query name]⟩
          else
            match c.subscribeRes name with
            | .error e =>
              ⟨.failed name (classifyError e), σ,
                [.resolve name, .query name, .subscribe name]⟩
            | .ok _ =>
              ⟨.joined name, name :: σ,
                [.resolve name, .query name, .subscribe name]⟩

/-- Result of a whole reconciliation run: per-record outcomes in input
order, the final subscription state, and the full call trace. -/
structure RunResult where
  outcomes : List Outcome
  state : List String
  calls : List Call
deriving DecidableEq

/-- The reconciliation loop over all records (main.py lines 137-166),
threading the subscription state left to right. -/
def runRecords (c : Client) (dryRun : Bool) :
    List (Option String) → List String → RunResult
  | [], σ => ⟨[], σ, []⟩
  | r :: rs, σ =>
    let s := stepRecord c dryRun σ r
    let rest := runRecords c dryRun rs s.state
    ⟨s.outcome :: rest.outcomes, rest.state, s.calls ++ rest.calls⟩

/-- Names appended to successful_joins, in order (main.py line 155). -/
def successfulJoins (os : List Outcome) : List String :=
  os.filterMap fun o =>
    match o with
    | .joined n => some n
    | _ => none

/-- Names appended to already_joined, in order (main.py line 149). -/
def alreadyJoinedL (os : List Outcome) : List String :=
  os.filterMap fun o =>
    match o with
    | .alreadyJoined n => some n
    | _ => none

/-- Name and error pairs appended to failed_joins, in order (main.py lines
141 and 160-166). -/
def failedJoins (os : List Outcome) : List (String × String) :=
  os.filterMap fun o =>
    match o with
    | .failed n e => some (n, e)
    | _ => none

/-- Tests whether a call is a subscribe mutation. -/
def isSubscribeCall : Call → Bool
  | .subscribe _ => true
  | _ => false

/-- Python truthiness of an optional string: an absent value and the empty
string are both falsy, which drives the or fallbacks and the validation of
main.py lines 202-217. -/
def truthy : Option String → Bool
  | none => false
  | some s => !(s == "")

/-- Python x or y for optional strings: x if truthy, else y. -/
def pyOr (x y : Option String) : Option String := if truthy x then x else y

/-- Resolved credential set, the tuple get_reddit_credentials returns. -/
structure Creds where
  clientId : Option String
  clientSecret : Option String
  username : Option String
  password : Option String
  userAgent : Option String
deriving DecidableEq

/-- Embedding of get_reddit_credentials (main.py lines 194-225): merge each
explicit value with its config fallback, default the user agent, then fail
with the list of missing required parameter names when any of the four
credentials is falsy. -/
def getRedditCredentials (config : String → Option String)
    (clientId clientSecret username password userAgent : Option String) :
    Except (List String) Creds :=
  let clientId := pyOr clientId (config "client_id")
  let clientSecret := pyOr clientSecret (config "client_secret")
  let username := pyOr username (config "username")
  let password := pyOr password (config "password")
  let userAgent :=
    pyOr userAgent (some ((config "user_agent").getD "reddit-cm:v0.1.0"))
  let missing :=
    (if truthy clientId then [] else ["client-id"]) ++
    (if truthy clientSecret then [] else ["client-secret"]) ++
    (if truthy username then [] else ["username"]) ++
    (if truthy password then [] else ["password"])
  if missing.isEmpty then
    .ok ⟨clientId, clientSecret, username, password, userAgent⟩
  else
    .error missing

/-- Specification-level notion of a case-insensitive substring match: pat
occurs contiguously inside the lowercased message. -/
def OccursCI (msg pat : String) : Prop :=
  ∃ a b : String, lowerStr msg = a ++ pat ++ b

/-- Specification-level normalisation: an explicitly supplied empty string
is the same as not supplying the field at all. -/
def dropEmpty : Option String → Option String
  | some s => if s = "" then none else some s
  | x => x

theorem occursCI_iff (msg pat : String) :
    OccursCI msg pat ↔ containsSub (lowerStr msg) pat = true := by
  constructor
  · rintro ⟨a, b, hab⟩
    have hdata : (lowerStr msg).data = a.data ++ (pat.data ++ b.data) := by
      rw [hab, String.data_append, String.data_append, List.append_assoc]
    unfold containsSub
    rw [List.any_eq_true]
    refine ⟨pat.data ++ b.data, ?_, ?_⟩
    · rw [List.mem_tails]
      exact ⟨a.data, hdata.symm⟩
    · rw [List.isPrefixOf_iff_prefix]
      exact ⟨b.data, rfl⟩
  · intro h
    unfold containsSub at h
    rw [List.any_eq_true] at h
    obtain ⟨t, ht, hp⟩ := h
    rw [List.mem_tails] at ht
    rw [List.isPrefixOf_iff_prefix] at hp
    obtain ⟨u, hu⟩ := ht
    obtain ⟨v, hv⟩ := hp
    refine ⟨⟨u⟩, ⟨v⟩, ?_⟩
    apply String.ext
    rw [String.data_append, String.data_append, ← hu, ← hv]
    simp [List.append_assoc]

theorem not_occursCI (msg pat : String)
    (h : containsSub (lowerStr msg) pat = false) : ¬ OccursCI msg pat := by
  rw [occursCI_iff, h]
  simp

theorem stepRecord_missing (c : Client) (d : Bool) (σ : List String)
    (r : Option String) (hr : r = none ∨ r = some "") :
    stepRecord c d σ r = ⟨.failed "Unknown" "Missing community name", σ, []⟩ := by
  rcases hr with hr | hr <;> subst hr <;> simp [stepRecord]

theorem stepRecord_resolve_error (c : Client) (d : Bool) (σ : List String)
    (n e : String) (hn : n ≠ "") (h : c.resolveRes n = .error e) :
    stepRecord c d σ (some n) =
      ⟨.failed n (classifyError e), σ, [.resolve n]⟩ := by
  simp [stepRecord, hn, h]

theorem stepRecord_query_error (c : Client) (d : Bool) (σ : List String)
    (n e : String) (hn : n ≠ "") (h1 : c.resolveRes n = .ok ())
    (h2 : c.queryRes n = .error e) :
    stepRecord c d σ (some n) =
      ⟨.failed n (classifyError e), σ, [.resolve n, .query n]⟩ := by
  simp [stepRecord, hn, h1, h2]

theorem stepRecord_already (c : Client) (d : Bool) (σ : List String)
    (n : String) (hn : n ≠ "") (h1 : c.resolveRes n = .ok ())
    (h2 : c.queryRes n = .ok ()) (hσ : n ∈ σ) :
    stepRecord c d σ (some n) =
      ⟨.alreadyJoined n, σ, [.resolve n, .query n]⟩ := by
  simp [stepRecord, hn, h1, h2, hσ]

theorem stepRecord_dry_join (c : Client) (σ : List String)
    (n : String) (hn : n ≠ "") (h1 : c.resolveRes n = .ok ())
    (h2 : c.queryRes n = .ok ()) (hσ : n ∉ σ) :
    stepRecord c true σ (some n) =
      ⟨.joined n, σ, [.resolve n, .query n]⟩ := by
  simp [stepRecord, hn, h1, h2, hσ]

theorem stepRecord_subscribe_error (c : Client) (σ : List String)
    (n e : String) (hn : n ≠ "") (h1 : c.resolveRes n = .ok ())
    (h2 : c.queryRes n = .ok ()) (hσ : n ∉ σ)
    (h3 : c.subscribeRes n = .error e) :
    stepRecord c false σ (some n) =
      ⟨.failed n (classifyError e), σ,
        [.resolve n, .query n, .subscribe n]⟩ := by
  simp [stepRecord, hn, h1, h2, hσ, h3]

theorem stepRecord_subscribe_ok (c : Client) (σ : List String)
    (n : String) (hn : n ≠ "") (h1 : c.resolveRes n = .ok ())
    (h2 : c.queryRes n = .ok ()) (hσ : n ∉ σ)
    (h3 : c.subscribeRes n = .ok ()) :
    stepRecord c false σ (some n) =
      ⟨.joined n, n :: σ, [.resolve n, .query n, .subscribe n]⟩ := by
  simp [stepRecord, hn, h1, h2, hσ, h3]

theorem runRecords_nil (c : Client) (d : Bool) (σ : List String) :
    runRecords c d [] σ = ⟨[], σ, []⟩ := rfl

theorem runRecords_cons (c : Client) (d : Bool) (r : Option String)
    (rs : List (Option String)) (σ : List String) :
    runRecords c d (r :: rs) σ =
      ⟨(stepRecord c d σ r).outcome ::
          (runRecords c d rs (stepRecord c d σ r).state).outcomes,
        (runRecords c d rs (stepRecord c d σ r).state).state,
        (stepRecord c d σ r).calls ++
          (runRecords c d rs (stepRecord c d σ r).state).calls⟩ := rfl

theorem runRecords_length (c : Client) (d : Bool)
    (rs : List (Option String)) (σ : List String) :
    (runRecords c d rs σ).outcomes.length = rs.length := by
  induction rs generalizing σ with
  | nil => rfl
  | cons r rs ih => simp [runRecords_cons, ih]

theorem stepRecord_state_mono (c : Client) (d : Bool) (σ : List String)
    (r : Option String) : σ ⊆ (stepRecord c d σ r).state := by
  cases r with
  | none => exact fun x hx => hx
  | some n =>
    simp only [stepRecord]
    repeat' split
    all_goals first
      | exact fun x hx => hx
      | exact fun x hx => List.mem_cons_of_mem _ hx

theorem runRecords_state_mono (c : Client) (d : Bool)
    (rs : List (Option String)) (σ : List String) :
    σ ⊆ (runRecords c d rs σ).state := by
  induction rs generalizing σ with
  | nil => exact fun x hx => hx
  | cons r rs ih =>
    rw [runRecords_cons]
    exact fun x hx => ih _ (stepRecord_state_mono c d σ r hx)

theorem stepRecord_dry_state (c : Client) (σ : List String)
    (r : Option String) : (stepRecord c true σ r).state = σ := by
  cases r with
  | none => rfl
  | some n =>
    simp only [stepRecord]
    repeat' split
    all_goals simp_all

theorem stepRecord_dry_calls (c : Client) (σ : List String)
    (r : Option String) :
    (stepRecord c true σ r).calls.filter isSubscribeCall = [] := by
  cases r with
  | none => rfl
  | some n =>
    simp only [stepRecord]
    repeat' split
    all_goals simp_all [isSubscribeCall]

theorem runRecords_dry_state (c : Client) (rs : List (Option String))
    (σ : List String) : (runRecords c true rs σ).state = σ := by
  induction rs generalizing σ with
  | nil => rfl
  | cons r rs ih =>
    rw [runRecords_cons]
    simp [stepRecord_dry_state, ih]

theorem runRecords_dry_calls (c : Client) (rs : List (Option String))
    (σ : List String) :
    (runRecords c true rs σ).calls.filter isSubscribeCall = [] := by
  induction rs generalizing σ with
  | nil => rfl
  | cons r rs ih =>
    rw [runRecords_cons]
    simp [List.filter_append, stepRecord_dry_calls, ih]

theorem counts_partition (os : List Outcome) :
    (successfulJoins os).length + (alreadyJoinedL os).length +
      (failedJoins os).length = os.length := by
  induction os with
  | nil => rfl
  | cons o os ih =>
    cases o <;>
      simp [successfulJoins, alreadyJoinedL, failedJoins,
        List.filterMap_cons] at ih ⊢ <;>
      omega

theorem stepRecord_joined (c : Client) (σ : List String) (r : Option String)
    (n : String) (h : (stepRecord c false σ r).outcome = .joined n) :
    r = some n ∧ n ≠ "" ∧ c.resolveRes n = .ok () ∧ c.queryRes n = .ok () ∧
      n ∈ (stepRecord c false σ r).state := by
  cases r with
  | none => simp [stepRecord] at h
  | some m =>
    by_cases hm : m = ""
    · subst hm
      simp [stepRecord] at h
    · cases h1 : c.resolveRes m with
      | error e =>
        rw [stepRecord_resolve_error c false σ m e hm h1] at h
        simp at h
      | ok u =>
        cases u
        cases h2 : c.queryRes m with
        | error e =>
          rw [stepRecord_query_error c false σ m e hm h1 h2] at h
          simp at h
        | ok u2 =>
          cases u2
          by_cases hσ : m ∈ σ
          · rw [stepRecord_already c false σ m hm h1 h2 hσ] at h
            simp at h
          · cases h3 : c.subscribeRes m with
            | error e =>
              rw [stepRecord_subscribe_error c σ m e hm h1 h2 hσ h3] at h
              simp at h
            | ok u3 =>
              cases u3
              rw [stepRecord_subscribe_ok c σ m hm h1 h2 hσ h3] at h
              simp only [Outcome.joined.injEq] at h
              subst h
              exact ⟨rfl, hm, h1, h2, by
                rw [stepRecord_subscribe_ok c σ m hm h1 h2 hσ h3]
                exact List.mem_cons_self _ _⟩

theorem runRecords_joined_facts (c : Client) (rs : List (Option String))
    (σ : List String) (i : Nat) (n : String)
    (h : (runRecords c false rs σ).outcomes[i]? = some (.joined n)) :
    rs[i]? = some (some n) ∧ n ≠ "" ∧ c.resolveRes n = .ok () ∧
      c.queryRes n = .ok () ∧ n ∈ (runRecords c false rs σ).state := by
  induction rs generalizing σ i with
  | nil => simp [runRecords_nil] at h
  | cons r rs ih =>
    rw [runRecords_cons] at h ⊢
    cases i with
    | zero =>
      simp only [List.getElem?_cons_zero, Option.some.injEq] at h
      have hs := stepRecord_joined c σ r n h
      refine ⟨by simp [hs.1], hs.2.1, hs.2.2.1, hs.2.2.2.1, ?_⟩
      exact runRecords_state_mono c false rs _ hs.2.2.2.2
    | succ i =>
      simp only [List.getElem?_cons_succ] at h
      have hrec := ih _ _ h
      exact ⟨by simpa using hrec.1, hrec.2.1, hrec.2.2.1, hrec.2.2.2.1,
        hrec.2.2.2.2⟩

theorem run_already_of_mem (c : Client) (d : Bool)
    (rs : List (Option String)) (τ : List String) (i : Nat) (n : String)
    (hr : rs[i]? = some (some n)) (hn : n ≠ "")
    (h1 : c.resolveRes n = .ok ()) (h2 : c.queryRes n = .ok ())
    (hτ : n ∈ τ) :
    (runRecords c d rs τ).outcomes[i]? = some (.alreadyJoined n) := by
  induction rs generalizing τ i with
  | nil => simp at hr
  | cons r rs ih =>
    rw [runRecords_cons]
    cases i with
    | zero =>
      simp only [List.getElem?_cons_zero, Option.some.injEq] at hr
      subst hr
      simp [stepRecord_already c d τ n hn h1 h2 hτ]
    | succ i =>
      simp only [List.getElem?_cons_succ] at hr ⊢
      exact ih _ _ hr (stepRecord_state_mono c d τ r hτ)

theorem run_sim_real_outcomes (c : Client)
    (hsub : ∀ n, c.subscribeRes n = .ok ()) :
    ∀ (rs : List (Option String)) (σ τ : List String),
      (∀ n, some n ∈ rs → (n ∈ σ ↔ n ∈ τ)) →
      (rs.filterMap id).Nodup →
      (runRecords c true rs σ).outcomes = (runRecords c false rs τ).outcomes := by
  intro rs
  induction rs with
  | nil =>
    intro σ τ _ _
    rfl
  | cons r rs ih =>
    intro σ τ hagree hnd
    have htail : ∀ k, some k ∈ rs → (k ∈ σ ↔ k ∈ τ) :=
      fun k hk => hagree k (List.mem_cons_of_mem _ hk)
    rw [runRecords_cons, runRecords_cons]
    cases r with
    | none =>
      simp only [stepRecord_missing c true σ none (Or.inl rfl),
        stepRecord_missing c false τ none (Or.inl rfl), List.cons.injEq]
      exact ⟨trivial, ih σ τ htail (by simpa using hnd)⟩
    | some m =>
      by_cases hm : m = ""
      · subst hm
        simp only [stepRecord_missing c true σ (some "") (Or.inr rfl),
          stepRecord_missing c false τ (some "") (Or.inr rfl),
          List.cons.injEq]
        refine ⟨trivial, ih σ τ htail ?_⟩
        have hthis : (List.filterMap id (some "" :: rs)).Nodup := hnd
        simp [List.filterMap_cons] at hthis
        exact hthis.2
      · have hcons : some m ∉ rs ∧ (rs.filterMap id).Nodup := by
          have hthis : (List.filterMap id (some m :: rs)).Nodup := hnd
          simp [List.filterMap_cons] at hthis
          exact hthis
        have hndtail : (rs.filterMap id).Nodup := hcons.2
        cases h1 : c.resolveRes m with
        | error e =>
          simp only [stepRecord_resolve_error c true σ m e hm h1,
            stepRecord_resolve_error c false τ m e hm h1, List.cons.injEq]
          exact ⟨trivial, ih σ τ htail hndtail⟩
        | ok u =>
          cases u
          cases h2 : c.queryRes m with
          | error e =>
            simp only [stepRecord_query_error c true σ m e hm h1 h2,
              stepRecord_query_error c false τ m e hm h1 h2, List.cons.injEq]
            exact ⟨trivial, ih σ τ htail hndtail⟩
          | ok u2 =>
            cases u2
            have hiff : m ∈ σ ↔ m ∈ τ := hagree m (List.mem_cons_self _ _)
            by_cases hσ : m ∈ σ
            · have hτ : m ∈ τ := hiff.mp hσ
              simp only [stepRecord_already c true σ m hm h1 h2 hσ,
                stepRecord_already c false τ m hm h1 h2 hτ, List.cons.injEq]
              exact ⟨trivial, ih σ τ htail hndtail⟩
            · have hτ : m ∉ τ := fun hx => hσ (hiff.mpr hx)
              simp only [stepRecord_dry_join c σ m hm h1 h2 hσ,
                stepRecord_subscribe_ok c τ m hm h1 h2 hτ (hsub m),
                List.cons.injEq]
              refine ⟨trivial, ih σ (m :: τ) ?_ hndtail⟩
              intro k hk
              have hkm : k ≠ m := by
                intro hkm
                subst hkm
                exact hcons.1 hk
              rw [htail k hk]
              simp [List.mem_cons, hkm]

/-- C2 counterexample: the claim says a record with a missing or empty name
gets a distinct Skipped outcome counted separately from Failed. On the
code, such a record is appended to failed_joins with name Unknown and error
Missing community name, so it is counted among the failures; only the
no-client-calls half of the claim holds. -/
theorem C2_counterexample :
    (runRecords ⟨fun _ => .ok (), fun _ => .ok (), fun _ => .ok ()⟩
        false [none] []).outcomes =
      [.failed "Unknown" "Missing community name"] ∧
    (failedJoins (runRecords ⟨fun _ => .ok (), fun _ => .ok (),
        fun _ => .ok ()⟩ false [none] []).outcomes).length = 1 ∧
    (runRecords ⟨fun _ => .ok (), fun _ => .ok (), fun _ => .ok ()⟩
        false [none] []).calls = [] := by
  decide

/-- C2 amended: a record whose name field is absent or the empty string is
recorded as a failed join with name Unknown and error Missing community
name, the subscription state is unchanged, and the client is never called
for that record. -/
theorem C2_missing_name (c : Client) (d : Bool) (σ : List String)
    (r : Option String) (hr : r = none ∨ r = some "") :
    stepRecord c d σ r =
      ⟨.failed "Unknown" "Missing community name", σ, []⟩ :=
  stepRecord_missing c d σ r hr

/-- C2 witness: the amended statement evaluated on an empty-name record. -/
theorem C2_missing_name_witness :
    stepRecord ⟨fun _ => .ok (), fun _ => .ok (), fun _ => .ok ()⟩ false []
        (some "") = ⟨.failed "Unknown" "Missing community name", [], []⟩ :=
  C2_missing_name ⟨fun _ => .ok (), fun _ => .ok (), fun _ => .ok ()⟩ false []
    (some "") (Or.inr rfl)

/-- C3: a record with a non-empty name that the client reports as already
subscribed yields AlreadyJoined, leaves the state unchanged, and issues no
subscribe call, in both simulation and non-simulation mode. -/
theorem C3_already_joined_no_subscribe (c : Client) (d : Bool)
    (σ : List String) (n : String) (hn : n ≠ "")
    (h1 : c.resolveRes n = .ok ()) (h2 : c.queryRes n = .ok ())
    (hσ : n ∈ σ) :
    (stepRecord c d σ (some n)).outcome = .alreadyJoined n ∧
      (stepRecord c d σ (some n)).state = σ ∧
      (stepRecord c d σ (some n)).calls.filter isSubscribeCall = [] := by
  rw [stepRecord_already c d σ n hn h1 h2 hσ]
  refine ⟨rfl, rfl, ?_⟩
  simp [isSubscribeCall]

/-- C3 witness: an already subscribed community, in both modes. -/
theorem C3_already_joined_no_subscribe_witness :
    ((stepRecord ⟨fun _ => .ok (), fun _ => .ok (), fun _ => .ok ()⟩ true
          ["python"] (some "python")).outcome = .alreadyJoined "python" ∧
        (stepRecord ⟨fun _ => .ok (), fun _ => .ok (), fun _ => .ok ()⟩ true
          ["python"] (some "python")).state = ["python"] ∧
        (stepRecord ⟨fun _ => .ok (), fun _ => .ok (), fun _ => .ok ()⟩ true
          ["python"] (some "python")).calls.filter isSubscribeCall = []) ∧
      ((stepRecord ⟨fun _ => .ok (), fun _ => .ok (), fun _ => .ok ()⟩ false
          ["python"] (some "python")).outcome = .alreadyJoined "python" ∧
        (stepRecord ⟨fun _ => .ok (), fun _ => .ok (), fun _ => .ok ()⟩ false
          ["python"] (some "python")).state = ["python"] ∧
        (stepRecord ⟨fun _ => .ok (), fun _ => .ok (), fun _ => .ok ()⟩ false
          ["python"] (some "python")).calls.filter isSubscribeCall = []) :=
  ⟨C3_already_joined_no_subscribe _ true ["python"] "python" (by decide) rfl
      rfl (by decide),
    C3_already_joined_no_subscribe _ false ["python"] "python" (by decide) rfl
      rfl (by decide)⟩

/-- C4: with the dry-run flag set the reconciler issues no subscribe call
and leaves the subscription state unchanged, for every input list and every
client behaviour. -/
theorem C4_dry_run_no_mutation (c : Client) (rs : List (Option String))
    (σ : List String) :
    (runRecords c true rs σ).calls.filter isSubscribeCall = [] ∧
      (runRecords c true rs σ).state = σ :=
  ⟨runRecords_dry_calls c rs σ, runRecords_dry_state c rs σ⟩

/-- C6: the reconciler is total and retry-free: for every client, including
one whose operations raise, every input record yields exactly one outcome
in input order, so the reported total equals the input length, and per
record each platform operation is issued at most once, in protocol order. -/
theorem C6_total_no_retry (c : Client) (d : Bool) :
    (∀ (rs : List (Option String)) (σ : List String),
        (runRecords c d rs σ).outcomes.length = rs.length) ∧
      (∀ (σ : List String) (n : String),
        ((stepRecord c d σ (some n)).calls).Sublist
          [Call.resolve n, Call.query n, Call.subscribe n]) ∧
      (∀ σ : List String, (stepRecord c d σ none).calls = []) := by
  refine ⟨fun rs σ => runRecords_length c d rs σ, fun σ n => ?_, fun σ => rfl⟩
  simp only [stepRecord]
  repeat' split
  all_goals first
    | exact List.Sublist.refl _
    | exact List.Sublist.cons₂ _ (List.Sublist.cons₂ _ (List.nil_sublist _))
    | exact List.Sublist.cons₂ _ (List.nil_sublist _)
    | exact List.nil_sublist _

/-- C7: if a non-simulated run yields Joined for the record at position i,
then a second run of the same input list against the resulting subscription
state yields AlreadyJoined at position i, whichever mode the second run
uses. -/
theorem C7_idempotent (c : Client) (rs : List (Option String))
    (σ : List String) (i : Nat) (n : String) (d : Bool)
    (h : (runRecords c false rs σ).outcomes[i]? = some (.joined n)) :
    (runRecords c d rs ((runRecords c false rs σ).state)).outcomes[i]? =
      some (.alreadyJoined n) := by
  obtain ⟨hr, hn, h1, h2, hmem⟩ := runRecords_joined_facts c rs σ i n h
  exact run_already_of_mem c d rs _ i n hr hn h1 h2 hmem

/-- C7 witness: a record joined on the first run is AlreadyJoined on the
second. -/
theorem C7_idempotent_witness :
    (runRecords ⟨fun _ => .ok (), fun _ => .ok (), fun _ => .ok ()⟩ false
        [some "a"]
        ((runRecords ⟨fun _ => .ok (), fun _ => .ok (), fun _ => .ok ()⟩
          false [some "a"] []).state)).outcomes[0]? =
      some (.alreadyJoined "a") :=
  C7_idempotent ⟨fun _ => .ok (), fun _ => .ok (), fun _ => .ok ()⟩
    [some "a"] [] 0 "a" false (by decide)

/-- C9: every input record, the nameless ones included, lands in exactly
one of the three result lists, so their lengths sum to the input length,
which is also the reported total processed. -/
theorem C9_partition_invariant (c : Client) (d : Bool)
    (rs : List (Option String)) (σ : List String) :
    (successfulJoins (runRecords c d rs σ).outcomes).length +
        (alreadyJoinedL (runRecords c d rs σ).outcomes).length +
        (failedJoins (runRecords c d rs σ).outcomes).length = rs.length := by
  rw [counts_partition, runRecords_length]

theorem containsSub_eq_false_of_not (msg pat : String)
    (h : ¬ OccursCI msg pat) : containsSub (lowerStr msg) pat = false := by
  cases hb : containsSub (lowerStr msg) pat with
  | false => rfl
  | true => exact absurd ((occursCI_iff msg pat).mpr hb) h

/-- C1: every error raised by resolve, by the subscription-state query, or
by subscribe is classified by case-insensitive substring matching on its
message, in priority order: private or forbidden, then not found or 404,
then banned, else an unknown-error outcome carrying the original
message. -/
theorem C1_error_classification :
    (∀ (c : Client) (d : Bool) (σ : List String) (n e : String), n ≠ "" →
        c.resolveRes n = .error e →
        (stepRecord c d σ (some n)).outcome = .failed n (classifyError e)) ∧
      (∀ (c : Client) (d : Bool) (σ : List String) (n e : String), n ≠ "" →
        c.resolveRes n = .ok () → c.queryRes n = .error e →
        (stepRecord c d σ (some n)).outcome = .failed n (classifyError e)) ∧
      (∀ (c : Client) (σ : List String) (n e : String), n ≠ "" →
        c.resolveRes n = .ok () → c.queryRes n = .ok () → n ∉ σ →
        c.subscribeRes n = .error e →
        (stepRecord c false σ (some n)).outcome =
          .failed n (classifyError e)) ∧
      (∀ e : String, OccursCI e "private" ∨ OccursCI e "forbidden" →
        classifyError e = "Private/Restricted community") ∧
      (∀ e : String, ¬ (OccursCI e "private" ∨ OccursCI e "forbidden") →
        OccursCI e "not found" ∨ OccursCI e "404" →
        classifyError e = "Community not found") ∧
      (∀ e : String, ¬ (OccursCI e "private" ∨ OccursCI e "forbidden") →
        ¬ (OccursCI e "not found" ∨ OccursCI e "404") →
        OccursCI e "banned" → classifyError e = "Banned from community") ∧
      (∀ e : String, ¬ (OccursCI e "private" ∨ OccursCI e "forbidden") →
        ¬ (OccursCI e "not found" ∨ OccursCI e "404") →
        ¬ OccursCI e "banned" →
        classifyError e = "Unknown error: " ++ e) := by
  refine ⟨?_, ?_, ?_, ?_, ?_, ?_, ?_⟩
  · intro c d σ n e hn h
    rw [stepRecord_resolve_error c d σ n e hn h]
  · intro c d σ n e hn h1 h2
    rw [stepRecord_query_error c d σ n e hn h1 h2]
  · intro c σ n e hn h1 h2 hσ h3
    rw [stepRecord_subscribe_error c σ n e hn h1 h2 hσ h3]
  · intro e h
    rcases h with h | h <;> rw [occursCI_iff] at h <;> simp [classifyError, h]
  · intro e hneg h
    push_neg at hneg
    have hp := containsSub_eq_false_of_not e "private" hneg.1
    have hf := containsSub_eq_false_of_not e "forbidden" hneg.2
    rcases h with h | h <;> rw [occursCI_iff] at h <;>
      simp [classifyError, hp, hf, h]
  · intro e hneg1 hneg2 h
    push_neg at hneg1 hneg2
    have hp := containsSub_eq_false_of_not e "private" hneg1.1
    have hf := containsSub_eq_false_of_not e "forbidden" hneg1.2
    have hnf := containsSub_eq_false_of_not e "not found" hneg2.1
    have h404 := containsSub_eq_false_of_not e "404" hneg2.2
    rw [occursCI_iff] at h
    simp [classifyError, hp, hf, hnf, h404, h]
  · intro e hneg1 hneg2 hneg3
    push_neg at hneg1 hneg2
    have hp := containsSub_eq_false_of_not e "private" hneg1.1
    have hf := containsSub_eq_false_of_not e "forbidden" hneg1.2
    have hnf := containsSub_eq_false_of_not e "not found" hneg2.1
    have h404 := containsSub_eq_false_of_not e "404" hneg2.2
    have hb := containsSub_eq_false_of_not e "banned" hneg3
    simp [classifyError, hp, hf, hnf, h404, hb]

/-- C1 witness: the classification evaluated on the spec's sample messages
and an error routed through the step function. -/
theorem C1_error_classification_witness :
    (stepRecord ⟨fun _ => .error "boom", fun _ => .ok (), fun _ => .ok ()⟩
        false [] (some "python")).outcome =
      .failed "python" (classifyError "boom") ∧
    classifyError "Forbidden: private sub" = "Private/Restricted community" ∧
    classifyError "HTTP 404 Not Found" = "Community not found" ∧
    classifyError "User is banned" = "Banned from community" ∧
    classifyError "timeout" = "Unknown error: " ++ "timeout" :=
  ⟨C1_error_classification.1 _ false [] "python" "boom" (by decide) rfl,
    C1_error_classification.2.2.2.1 "Forbidden: private sub"
      (Or.inl ⟨"forbidden: ", " sub", by decide⟩),
    C1_error_classification.2.2.2.2.1 "HTTP 404 Not Found"
      (by rintro (h | h) <;> rw [occursCI_iff] at h <;> revert h <;> decide)
      (Or.inr ⟨"http ", " not found", by decide⟩),
    C1_error_classification.2.2.2.2.2.1 "User is banned"
      (by rintro (h | h) <;> rw [occursCI_iff] at h <;> revert h <;> decide)
      (by rintro (h | h) <;> rw [occursCI_iff] at h <;> revert h <;> decide)
      ⟨"user is ", "", by decide⟩,
    C1_error_classification.2.2.2.2.2.2 "timeout"
      (by rintro (h | h) <;> rw [occursCI_iff] at h <;> revert h <;> decide)
      (by rintro (h | h) <;> rw [occursCI_iff] at h <;> revert h <;> decide)
      (by intro h; rw [occursCI_iff] at h; revert h; decide)⟩

/-- C5 counterexample: against a client whose subscribe raises, the
simulated run reports one would-join while the real run reports zero joins,
so the per-kind counts of the two modes differ. -/
theorem C5_counterexample :
    (successfulJoins (runRecords
        ⟨fun _ => .ok (), fun _ => .ok (), fun _ => .error "boom"⟩
        true [some "a"] []).outcomes).length ≠
      (successfulJoins (runRecords
        ⟨fun _ => .ok (), fun _ => .ok (), fun _ => .error "boom"⟩
        false [some "a"] []).outcomes).length := by
  decide

/-- C5 amended: provided no subscribe attempt fails and no community name
occurs twice among the records, a simulated run and a real run from the
same remote state produce the same outcome at every position, hence equal
Joined, AlreadyJoined and Failed counts. -/
theorem C5_sim_real_counts (c : Client) (rs : List (Option String))
    (σ : List String) (hsub : ∀ n, c.subscribeRes n = .ok ())
    (hnd : (rs.filterMap id).Nodup) :
    (runRecords c true rs σ).outcomes = (runRecords c false rs σ).outcomes ∧
      (successfulJoins (runRecords c true rs σ).outcomes).length =
        (successfulJoins (runRecords c false rs σ).outcomes).length ∧
      (alreadyJoinedL (runRecords c true rs σ).outcomes).length =
        (alreadyJoinedL (runRecords c false rs σ).outcomes).length ∧
      (failedJoins (runRecords c true rs σ).outcomes).length =
        (failedJoins (runRecords c false rs σ).outcomes).length := by
  have h := run_sim_real_outcomes c hsub rs σ σ (fun n _ => Iff.rfl) hnd
  rw [h]
  exact ⟨rfl, rfl, rfl, rfl⟩

/-- C5 witness: the amended statement on a two-record input. -/
theorem C5_sim_real_counts_witness :
    (runRecords ⟨fun _ => .ok (), fun _ => .ok (), fun _ => .ok ()⟩ true
          [some "a", some "b"] []).outcomes =
        (runRecords ⟨fun _ => .ok (), fun _ => .ok (), fun _ => .ok ()⟩ false
          [some "a", some "b"] []).outcomes ∧
      (successfulJoins (runRecords ⟨fun _ => .ok (), fun _ => .ok (),
            fun _ => .ok ()⟩ true [some "a", some "b"] []).outcomes).length =
        (successfulJoins (runRecords ⟨fun _ => .ok (), fun _ => .ok (),
            fun _ => .ok ()⟩ false [some "a", some "b"] []).outcomes).length ∧
      (alreadyJoinedL (runRecords ⟨fun _ => .ok (), fun _ => .ok (),
            fun _ => .ok ()⟩ true [some "a", some "b"] []).outcomes).length =
        (alreadyJoinedL (runRecords ⟨fun _ => .ok (), fun _ => .ok (),
            fun _ => .ok ()⟩ false [some "a", some "b"] []).outcomes).length ∧
      (failedJoins (runRecords ⟨fun _ => .ok (), fun _ => .ok (),
            fun _ => .ok ()⟩ true [some "a", some "b"] []).outcomes).length =
        (failedJoins (runRecords ⟨fun _ => .ok (), fun _ => .ok (),
            fun _ => .ok ()⟩ false [some "a", some "b"] []).outcomes).length :=
  C5_sim_real_counts ⟨fun _ => .ok (), fun _ => .ok (), fun _ => .ok ()⟩
    [some "a", some "b"] [] (fun _ => rfl) (by decide)

/-- C8: credential resolution prefers the explicit field over the config
field, only the user agent has a built-in default, resolution fails exactly
when some required field is missing after merging, and the error then names
every missing field, not just the first. -/
theorem C8_credential_resolution (config : String → Option String)
    (cid cs un pw ua : Option String) :
    (∀ r, getRedditCredentials config cid cs un pw ua = .ok r →
        r.clientId = (if truthy cid then cid else config "client_id") ∧
        r.clientSecret = (if truthy cs then cs else config "client_secret") ∧
        r.username = (if truthy un then un else config "username") ∧
        r.password = (if truthy pw then pw else config "password") ∧
        r.userAgent = (if truthy ua then ua
          else some ((config "user_agent").getD "reddit-cm:v0.1.0"))) ∧
      ((∃ l, getRedditCredentials config cid cs un pw ua = .error l) ↔
        (truthy (pyOr cid (config "client_id")) = false ∨
          truthy (pyOr cs (config "client_secret")) = false ∨
          truthy (pyOr un (config "username")) = false ∨
          truthy (pyOr pw (config "password")) = false)) ∧
      (∀ l, getRedditCredentials config cid cs un pw ua = .error l →
        (("client-id" ∈ l ↔
            truthy (pyOr cid (config "client_id")) = false) ∧
          ("client-secret" ∈ l ↔
            truthy (pyOr cs (config "client_secret")) = false) ∧
          ("username" ∈ l ↔
            truthy (pyOr un (config "username")) = false) ∧
          ("password" ∈ l ↔
            truthy (pyOr pw (config "password")) = false))) := by
  refine ⟨fun r hr => ?_, ?_, fun l hl => ?_⟩
  · by_cases h1 : truthy (pyOr cid (config "client_id")) <;>
      by_cases h2 : truthy (pyOr cs (config "client_secret")) <;>
        by_cases h3 : truthy (pyOr un (config "username")) <;>
          by_cases h4 : truthy (pyOr pw (config "password")) <;>
            simp_all [getRedditCredentials, pyOr] <;>
              (subst hr; exact ⟨rfl, rfl, rfl, rfl, rfl⟩)
  · by_cases h1 : truthy (pyOr cid (config "client_id")) <;>
      by_cases h2 : truthy (pyOr cs (config "client_secret")) <;>
        by_cases h3 : truthy (pyOr un (config "username")) <;>
          by_cases h4 : truthy (pyOr pw (config "password")) <;>
            simp_all [getRedditCredentials]
  · by_cases h1 : truthy (pyOr cid (config "client_id")) <;>
      by_cases h2 : truthy (pyOr cs (config "client_secret")) <;>
        by_cases h3 : truthy (pyOr un (config "username")) <;>
          by_cases h4 : truthy (pyOr pw (config "password")) <;>
            simp_all [getRedditCredentials] <;>
              (subst hl; simp)

/-- C8 witness: a config that supplies everything but the password, with no
explicit fields; resolution fails and the error names the password. -/
theorem C8_credential_resolution_witness :
    (∃ l, getRedditCredentials
        (fun k => if k = "password" then none else some "v")
        none none none none none = .error l) ∧
      ("password" ∈ ["password"] ↔
        truthy (pyOr none ((fun k : String =>
          if k = "password" then none else some "v") "password")) = false) :=
  ⟨(C8_credential_resolution
        (fun k => if k = "password" then none else some "v")
        none none none none none).2.1.mpr
      (Or.inr (Or.inr (Or.inr (by decide)))),
    ((C8_credential_resolution
        (fun k => if k = "password" then none else some "v")
        none none none none none).2.2 ["password"] (by rfl)).2.2.2⟩

theorem pyOr_dropEmpty (x y : Option String) :
    pyOr (dropEmpty x) y = pyOr x y := by
  cases x with
  | none => rfl
  | some s => by_cases hs : s = "" <;> simp [dropEmpty, pyOr, truthy, hs]

/-- C10: an explicitly supplied empty-string credential behaves exactly as
an absent one: dropping empty explicit fields leaves the resolution result
unchanged, and when the config fallback for the field is also absent or
empty, resolution fails and the field is reported among the missing
parameters. -/
theorem C10_empty_explicit_is_absent (config : String → Option String)
    (cid cs un pw ua : Option String) :
    (getRedditCredentials config (dropEmpty cid) (dropEmpty cs)
        (dropEmpty un) (dropEmpty pw) (dropEmpty ua) =
      getRedditCredentials config cid cs un pw ua) ∧
    (truthy (config "client_id") = false →
      (∀ r, getRedditCredentials config (some "") cs un pw ua ≠ .ok r) ∧
      (∀ l, getRedditCredentials config (some "") cs un pw ua = .error l →
        "client-id" ∈ l)) := by
  constructor
  · simp only [getRedditCredentials, pyOr_dropEmpty]
  · intro hcfg
    have h1 : truthy (pyOr (some "") (config "client_id")) = false := by
      simpa [pyOr, truthy] using hcfg
    constructor
    · intro r hr
      simp [getRedditCredentials, h1] at hr
    · intro l hl
      simp [getRedditCredentials, h1] at hl
      subst hl
      exact List.mem_cons_self _ _

/-- C10 witness: an empty-string client id with an empty config resolves
exactly like an absent one, and client-id is reported missing. -/
theorem C10_empty_explicit_is_absent_witness :
    (getRedditCredentials (fun _ => none) (dropEmpty (some ""))
        (dropEmpty none) (dropEmpty none) (dropEmpty none) (dropEmpty none) =
      getRedditCredentials (fun _ => none) (some "") none none none none) ∧
      "client-id" ∈ ["client-id", "client-secret", "username", "password"] :=
  ⟨(C10_empty_explicit_is_absent (fun _ => none)
      (some "") none none none none).1,
    ((C10_empty_explicit_is_absent (fun _ => none)
        (some "") none none none none).2 (by decide)).2
      ["client-id", "client-secret", "username", "password"] (by rfl)⟩

end RedditCM
